import Mathlib

/-!
Shallow embedding of the VCI access core of PyPSADiag-Enhanced:
`VCIBridge.py` (the 32-bit bridge process), `VCIAdapter.py` (the bridge
client) and `SharedVCIBridge.py` (the access broker).  Native driver calls
are modelled by an oracle structure whose fields return `Option`-valued
results (`none` models a raised exception in the `ctypes` call, which the
source catches with `try/except`).  Byte buffers are modelled as `List Nat`
with every element below 256.
-/

namespace PyPSADiag

/-! ## Hex-string utilities (VCIBridge.bytesEncode and helpers) -/

/-- Value of one hexadecimal digit, `none` when the character is not a hex
digit (Python `int(·, 16)` raises `ValueError`). -/
def hexDigit? (c : Char) : Option Nat :=
  if 48 ≤ c.toNat ∧ c.toNat ≤ 57 then some (c.toNat - 48)
  else if 97 ≤ c.toNat ∧ c.toNat ≤ 102 then some (c.toNat - 97 + 10)
  else if 65 ≤ c.toNat ∧ c.toNat ≤ 70 then some (c.toNat - 65 + 10)
  else none

/-- Python `int(s, 16)` on a plain digit string: `none` on the empty string
or any non-hex character. -/
def pyIntHex (cs : List Char) : Option Nat :=
  match cs with
  | [] => none
  | _ => cs.foldlM (fun acc c => (hexDigit? c).map (fun d => acc * 16 + d)) 0

/-- Python `re.findall('.{1,2}', s)`: split into chunks of two characters,
the last chunk possibly a single character. -/
def findallPairs : List Char → List (List Char)
  | [] => []
  | [c] => [[c]]
  | a :: b :: rest => [a, b] :: findallPairs rest

/-- Python `s.split(" ")`: split on every single space, keeping empty
fields. -/
def splitOnSpace : List Char → List (List Char)
  | [] => [[]]
  | c :: rest =>
    let r := splitOnSpace rest
    if c = ' ' then [] :: r
    else
      match r with
      | [] => [[c]]
      | g :: gs => (c :: g) :: gs

/-- Python `" ".join(groups)`. -/
def joinSpaces : List (List Char) → List Char
  | [] => []
  | [g] => g
  | g :: gs => g ++ ' ' :: joinSpaces gs

/-- Uppercase hexadecimal digit character for a value below 16. -/
def hexDigitCharU (n : Nat) : Char :=
  if n < 10 then Char.ofNat ('0'.toNat + n) else Char.ofNat ('A'.toNat + (n - 10))

/-- Python `hex(n).replace("0x", "").upper()` for a non-negative `n`. -/
def pyHexUpper (n : Nat) : String :=
  String.mk ((Nat.toDigits 16 n).map Char.toUpper)

/-- Python `s.zfill(2)` on a non-empty string. -/
def zfill2 (s : String) : String := if s.length = 1 then "0" ++ s else s

/-- One response byte rendered exactly as `VCIBridge.send_receive` does:
`hex(b).replace("0x", "").upper().zfill(2)`. -/
def hexByte (n : Nat) : String := zfill2 (pyHexUpper n)

/-- Specification-side rendering: each byte as two uppercase hexadecimal
digits, concatenated with no separators. -/
def hexRender (bs : List Nat) : String :=
  String.join (bs.map (fun b => String.mk [hexDigitCharU (b / 16), hexDigitCharU (b % 16)]))

namespace VCIBridge

/-! ## Protocol and line constants (VCIBridge.__init__) -/

def KWP2000_PSA : Int := 1
def PSA2 : Int := 2
def DIAG_ON_CAN : Int := 3
def KWP2000_FIAT : Int := 6
def KWP_ON_CAN_FIAT : Int := 7
def UDS_PSA : Int := 11

def LINE_CAN_DIAG : Int := 17
def LINE_CAN_IS : Int := 18
def LINE_CAN_PSA2000 : Int := 0
def LINE_CAN_FIAT_LS6 : Int := 47
def LINE_CAN_FIAT_LS3 : Int := 48

def pd_DIAG_ON_CAN : String := "03 10 E8"
def pd_KWP_ON_CAN_FIAT : String := "07"
def pd_KWP2000PSA : String := "01 00"
def pd_UDS_PSA : String := "0B"

/-- `VCIBridge.statusToStr`: status-code dictionary lookup with the
`UNKNOWN ERROR` fallback. -/
def statusToStr (code : Int) : String :=
  if code = 0 then "OPERATION SUCCEEDED"
  else if code = 1 then "OPERATION SUCCEEDED (ALT)"
  else if code = -1 then "HARDWARE ERROR"
  else if code = -2 then "SOFTWARE ERROR"
  else if code = -3 then "MISSING DRIVER RESOURCE"
  else if code = -4 then "CABLE IS UNPLUGGED"
  else if code = -5 then "NO RESPONSE FROM ECU"
  else if code = -6 then "INVALID COMMUNICATION LINE"
  else if code = -7 then "INVALID PROTOCOL DESCRIPTOR"
  else if code = -8 then "INVALID ECU DESCRIPTOR"
  else if code = -9 then "INVALID FUNCTION ORDER"
  else if code = -10 then "RESPONSE BUFFER OVERFLOW"
  else if code = -11 then "COMMUNICATION TIMEOUT"
  else if code = -12 then "VCI BUSY"
  else if code = -13 then "INVALID PARAMETER"
  else if code = -14 then "INITIALIZATION FAILED"
  else if code = -15 then "PROTOCOL NOT SUPPORTED"
  else "UNKNOWN ERROR " ++ toString code

/-- The `for by in byt: out.append(int(by, 16))` loop of
`VCIBridge.bytesEncode`: parse every chunk, failing the whole encode on
the first bad chunk. -/
def parseChunks : List (List Char) → Option (List Nat)
  | [] => some []
  | g :: gs =>
    match pyIntHex g, parseChunks gs with
    | some v, some vs => some (v :: vs)
    | _, _ => none

/-- `VCIBridge.bytesEncode(pd, divisor)`: split the string (on spaces when
`divisor` is not `None`, else into two-character chunks), parse each chunk
as hex, and pack into a byte buffer.  `none` models the `ValueError` raised
by `int(·, 16)` on a bad chunk or by `bytes(out)` on a value above 255. -/
def bytesEncode (pd : String) (divisor : Option String) : Option (List Nat) :=
  let byt : List (List Char) :=
    match divisor with
    | none => findallPairs pd.data
    | some _ => splitOnSpace pd.data
  match parseChunks byt with
  | none => none
  | some out => if out.all (fun b => b < 256) then some out else none

/-- `VCIBridge.strby_to_char(inp)`: regroup into byte pairs, join with
spaces, and encode. -/
def strby_to_char (inp : String) : Option (List Nat) :=
  bytesEncode (String.mk (joinSpaces (findallPairs inp.data))) (some " ")

/-- `VCIBridge.protocolToProtocolDescriptor`: fixed descriptor bytes per
protocol, `none` for an unimplemented protocol. -/
def protocolToProtocolDescriptor (protocol : Option Int) : Option (List Nat) :=
  if protocol = some DIAG_ON_CAN ∨ protocol = none then bytesEncode pd_DIAG_ON_CAN (some " ")
  else if protocol = some KWP_ON_CAN_FIAT then bytesEncode pd_KWP_ON_CAN_FIAT (some " ")
  else if protocol = some KWP2000_PSA then bytesEncode pd_KWP2000PSA (some " ")
  else none

/-- Python truthiness of an optional string (`None` and `""` are falsy). -/
def truthy : Option String → Bool
  | some s => !(s = "")
  | none => false

/-- The header padding done inline by `ecuToEcuDescriptor`: only a
three-character header gets a leading "0". -/
def pad3to4 (h : String) : String :=
  if h.length = 3 then "0" ++ h else h

/-- `VCIBridge.ecuToEcuDescriptor`: build the ECU descriptor bytes for the
given protocol; `none` models every `return None` path (missing
parameters, unsupported protocol, or an exception while encoding). -/
def ecuToEcuDescriptor (tx_h rx_h : Option String) (protocol : Int)
    (kwp_id : Option String) (dialog_type : String) : Option (List Nat) :=
  if protocol = DIAG_ON_CAN then
    if truthy tx_h && truthy rx_h then
      let tx := pad3to4 (tx_h.getD "")
      let rx := pad3to4 (rx_h.getD "")
      strby_to_char (rx ++ tx)
    else none
  else if protocol = KWP_ON_CAN_FIAT then
    if truthy tx_h && truthy rx_h && truthy kwp_id then
      let tx := pad3to4 (tx_h.getD "")
      let rx := pad3to4 (rx_h.getD "")
      let k0 := kwp_id.getD ""
      let k := if k0.length = 1 then "0" ++ k0 else k0
      strby_to_char (rx ++ tx ++ k ++ "00")
    else none
  else if protocol = PSA2 then
    if truthy kwp_id then strby_to_char (kwp_id.getD "") else none
  else if protocol = KWP2000_PSA then
    if truthy kwp_id then strby_to_char (kwp_id.getD "") else none
  else none

/-- Python `int(s)` on a plain decimal digit string (`none` models the
`ValueError` on empty or non-digit input). -/
def pyIntDec (cs : List Char) : Option Nat :=
  match cs with
  | [] => none
  | _ => cs.foldlM
      (fun acc c =>
        if '0' ≤ c ∧ c ≤ '9' then some (acc * 10 + (c.toNat - '0'.toNat)) else none) 0

/-- One primitive operation issued to the native VCI driver, with the
arguments the Python code passes to the DLL. -/
inductive HwCall where
  | openSession
  | getVersion
  | getFirmwareVersion
  | changeComLine (line : Int)
  | bindProtocol (desc : List Nat)
  | writeAndRead (ecuDesc payload : List Nat) (timeout : Int)
  | writeAndReadMF (ecuDesc payload : List Nat) (responses timeout : Int)
  | performInit (ecuDesc : List Nat)
  | closeSession
  | getAnalogicData (channel : Int)
deriving DecidableEq, Repr

/-- Oracle for the native `VCIAccess.dll` driver.  Each field gives the
integer status (and, where applicable, the bytes placed in the output
buffer) that the DLL call returns; `none` models the call raising an
exception, which every caller wraps in `try/except`. -/
structure Driver where
  openSession : Option Int
  getVersion : Option Int
  getFirmwareVersion : Option Int
  changeComLine : Int → Option Int
  bindProtocol : List Nat → Option Int
  writeAndRead : List Nat → List Nat → Int → Option (Int × List Nat)
  writeAndReadMF : List Nat → List Nat → Int → Int → Option (Int × List Nat)
  performInit : List Nat → Option (Int × List Nat)
  closeSession : Option Int
  getAnalogicData : Int → Option (Int × Int)

/-- The mutable state of a `VCIBridge` instance that the diagnostic
operations read and write. -/
structure BridgeState where
  connected : Bool
  currEcuDesc : Option (List Nat)
  active_protocol : Option String
deriving DecidableEq

/-- Fresh `VCIBridge` state (`__init__`). -/
def initBridgeState : BridgeState :=
  { connected := false, currEcuDesc := none, active_protocol := none }

/-- `VCIBridge.connect`: open the driver session; on a 0/1 status set
`connected` and read the API and firmware versions (their values are only
logged).  An exception (`none`) from a version read hits the surrounding
`except` and returns `False` — with `connected` already set. -/
def connect (vci : Option Driver) (s : BridgeState) : Bool × BridgeState × List HwCall :=
  match vci with
  | none => (false, s, [])
  | some drv =>
    match drv.openSession with
    | none => (false, s, [HwCall.openSession])
    | some result =>
      if result = 0 ∨ result = 1 then
        let s1 : BridgeState := { s with connected := true }
        match drv.getVersion with
        | none => (false, s1, [HwCall.openSession, HwCall.getVersion])
        | some _ =>
          match drv.getFirmwareVersion with
          | none => (false, s1, [HwCall.openSession, HwCall.getVersion, HwCall.getFirmwareVersion])
          | some _ => (true, s1, [HwCall.openSession, HwCall.getVersion, HwCall.getFirmwareVersion])
      else (false, s, [HwCall.openSession])

/-- `VCIBridge.disconnect`: close the session when connected; on an
exception from the close call `connected` is left unchanged (the
assignment follows the call in the source). -/
def disconnect (vci : Option Driver) (s : BridgeState) : Bool × BridgeState × List HwCall :=
  match vci with
  | none => (true, s, [])
  | some drv =>
    if s.connected then
      match drv.closeSession with
      | none => (false, s, [HwCall.closeSession])
      | some result =>
        let s1 : BridgeState := { s with connected := false }
        (decide (0 ≤ result), s1, [HwCall.closeSession])
    else (true, s, [])

/-- `VCIBridge._changeComLine`: issue the line change and report whether
the status is non-negative (`False` also on exception / missing driver). -/
def changeComLineOp (vci : Option Driver) (num_line : Int) : Bool × List HwCall :=
  match vci with
  | none => (false, [])
  | some drv =>
    match drv.changeComLine num_line with
    | none => (false, [HwCall.changeComLine num_line])
    | some result => (decide (0 ≤ result), [HwCall.changeComLine num_line])

/-- `VCIBridge._bindProtocol`: look up the protocol descriptor and issue
the bind; a missing descriptor is passed as a null/empty buffer, as the
source passes `(None, 0)`. -/
def bindProtocolOp (vci : Option Driver) (protocol : Option Int) : Bool × List HwCall :=
  match vci with
  | none => (false, [])
  | some drv =>
    let desc := (protocolToProtocolDescriptor protocol).getD []
    match drv.bindProtocol desc with
    | none => (false, [HwCall.bindProtocol desc])
    | some result => (decide (0 ≤ result), [HwCall.bindProtocol desc])

/-- `VCIBridge.perform_init`: slow/fast init against the given descriptor
(defaulting to the current one); any non-negative byte count is success. -/
def perform_init (vci : Option Driver) (s : BridgeState) (ecu_descriptor : Option (List Nat)) :
    Bool × List HwCall :=
  let desc := match ecu_descriptor with
    | none => s.currEcuDesc
    | some d => some d
  match desc with
  | none => (false, [])
  | some dsc =>
    match vci with
    | none => (false, [])
    | some drv =>
      match drv.performInit dsc with
      | none => (false, [HwCall.performInit dsc])
      | some (result, _) => (decide (0 ≤ result), [HwCall.performInit dsc])

/-- The legacy numeric bus-code remapping at the top of
`VCIBridge.configure` ("0"–"4" imply both bus and protocol). -/
def busRemap (bus protocol : String) : String × String :=
  if bus = "0" then ("IS", "DIAGONCAN")
  else if bus = "1" then ("DIAG", "DIAGONCAN")
  else if bus = "2" then ("DIAG", "KWPONCAN_FIAT")
  else if bus = "3" then ("IS", "KWPONCAN_FIAT")
  else if bus = "4" then ("IS", "PSA2000")
  else (bus, protocol)

/-- Python `int(target, 16)` with the `0x0D` default for a missing
PSA2000 target (`VCIBridge.configure`). -/
def targetInt? : Option String → Option Nat
  | none => some 13
  | some t => pyIntHex t.data

/-- `VCIBridge.configure`: connect on demand, remap legacy bus codes,
then per protocol assign `currEcuDesc`, select the communication line,
bind the protocol (and for PSA2000 parse the target/dialog parameters and
run the init handshake); `active_protocol` is set only on full success.
The result carries the new state and the trace of driver calls issued. -/
def configure (vci : Option Driver) (s : BridgeState)
    (tx_h rx_h bus protocol : String) (target : Option String) (dialog_type : String) :
    Bool × BridgeState × List HwCall :=
  let c0 := if s.connected then (true, s, ([] : List HwCall)) else connect vci s
  if c0.1 = false then (false, c0.2.1, c0.2.2)
  else
    let s0 := c0.2.1
    let ctr := c0.2.2
    let bp := busRemap bus protocol
    let bus1 := bp.1
    let prot1 := bp.2
    if prot1 = "DIAGONCAN" then
      if bus1 = "DIAG" ∨ bus1 = "IS" then
        let line := if bus1 = "DIAG" then LINE_CAN_DIAG else LINE_CAN_IS
        let s1 := { s0 with currEcuDesc := ecuToEcuDescriptor (some tx_h) (some rx_h) DIAG_ON_CAN none "0" }
        let r1 := changeComLineOp vci line
        if r1.1 then
          let r2 := bindProtocolOp vci (some DIAG_ON_CAN)
          if r2.1 then (true, { s1 with active_protocol := some prot1 }, ctr ++ r1.2 ++ r2.2)
          else (false, s1, ctr ++ r1.2 ++ r2.2)
        else (false, s1, ctr ++ r1.2)
      else (false, s0, ctr)
    else if prot1 = "KWPONCAN_FIAT" then
      if bus1 = "DIAG" ∨ bus1 = "IS" then
        let line := if bus1 = "DIAG" then LINE_CAN_FIAT_LS6 else LINE_CAN_FIAT_LS3
        let s1 := { s0 with currEcuDesc := ecuToEcuDescriptor (some tx_h) (some rx_h) KWP_ON_CAN_FIAT target dialog_type }
        let r1 := changeComLineOp vci line
        if r1.1 then
          let r2 := bindProtocolOp vci (some KWP_ON_CAN_FIAT)
          if r2.1 then (true, { s1 with active_protocol := some prot1 }, ctr ++ r1.2 ++ r2.2)
          else (false, s1, ctr ++ r1.2 ++ r2.2)
        else (false, s1, ctr ++ r1.2)
      else (false, s0, ctr)
    else if prot1 = "PSA2000" then
      match targetInt? target, pyIntDec dialog_type.data with
      | some target_int, some dialog_int =>
        let s1 := { s0 with currEcuDesc := ecuToEcuDescriptor none none KWP2000_PSA (some (zfill2 (pyHexUpper target_int))) "0" }
        let r1 := changeComLineOp vci (Int.ofNat dialog_int)
        if r1.1 then
          let r2 := bindProtocolOp vci (some KWP2000_PSA)
          if r2.1 then
            let r3 := perform_init vci s1 none
            if r3.1 then (true, { s1 with active_protocol := some prot1 }, ctr ++ r1.2 ++ r2.2 ++ r3.2)
            else (false, s1, ctr ++ r1.2 ++ r2.2 ++ r3.2)
          else (false, s1, ctr ++ r1.2 ++ r2.2)
        else (false, s1, ctr ++ r1.2)
      | _, _ => (false, s0, ctr)
    else (false, s0, ctr)

/-- `VCIBridge.send_receive`: encode the hex payload, run one
write-and-read exchange against the current ECU descriptor, and render a
positive-count response as uppercase hex; every failure path returns the
empty string. -/
def send_receive (vci : Option Driver) (s : BridgeState) (data : String) (timeout : Int) :
    String × List HwCall :=
  match s.currEcuDesc with
  | none => ("", [])
  | some ecuDesc =>
    match bytesEncode data none with
    | none => ("", [])
    | some inB =>
      match vci with
      | none => ("", [])
      | some drv =>
        match drv.writeAndRead ecuDesc inB timeout with
        | none => ("", [HwCall.writeAndRead ecuDesc inB timeout])
        | some (result, buf) =>
          if 0 < result then
            (String.join (((List.range result.toNat).map (fun i => buf.getD i 0)).map hexByte),
              [HwCall.writeAndRead ecuDesc inB timeout])
          else ("", [HwCall.writeAndRead ecuDesc inB timeout])

/-- `VCIBridge.send_receive_multiple`: as `send_receive` but through the
multi-frame driver primitive. -/
def send_receive_multiple (vci : Option Driver) (s : BridgeState)
    (data : String) (responses timeout : Int) : String × List HwCall :=
  match s.currEcuDesc with
  | none => ("", [])
  | some ecuDesc =>
    match bytesEncode data none with
    | none => ("", [])
    | some inB =>
      match vci with
      | none => ("", [])
      | some drv =>
        match drv.writeAndReadMF ecuDesc inB responses timeout with
        | none => ("", [HwCall.writeAndReadMF ecuDesc inB responses timeout])
        | some (result, buf) =>
          if 0 < result then
            (String.join (((List.range result.toNat).map (fun i => buf.getD i 0)).map hexByte),
              [HwCall.writeAndReadMF ecuDesc inB responses timeout])
          else ("", [HwCall.writeAndReadMF ecuDesc inB responses timeout])

/-- `VCIBridge.get_analog_data`: one analog channel read; a negative
status or an exception yields no value. -/
def get_analog_data (vci : Option Driver) (channel_index : Int) : Option Int × List HwCall :=
  match vci with
  | none => (none, [])
  | some drv =>
    match drv.getAnalogicData channel_index with
    | none => (none, [HwCall.getAnalogicData channel_index])
    | some (result, value) =>
      if 0 ≤ result then (some value, [HwCall.getAnalogicData channel_index])
      else (none, [HwCall.getAnalogicData channel_index])

/-- Parameter map of a bridge command, with the fields
`VCIBridge.handle_command` reads out of `params`. -/
structure CmdParams where
  data : String
  timeout : Int
  responses : Int
  channel : Int
  tx_h : String
  rx_h : String
  bus : String
  protocol : String
  target : Option String
  dialog_type : String
deriving DecidableEq

/-- A message the bridge process emits on stdout: either a log line or a
`<command>_response` message (`success` and `payload` carry the parts of
the `data` map the claims are about). -/
inductive BridgeOut where
  | log (message : String)
  | resp (tag : String) (success : Option Bool) (payload : Option String)
deriving DecidableEq

/-- `VCIBridge.handle_command`: dispatch one decoded command, emit the
matching `_response` message (or a single log line for an unknown
command), and report whether the main loop should continue.  Log emission
from inside the individual operations is abstracted away; the unknown-
command log line is the branch's only output in the source. -/
def handle_command (vci : Option Driver) (s : BridgeState) (command : String) (params : CmdParams) :
    Bool × BridgeState × List BridgeOut :=
  if command = "connect" then
    let r := connect vci s
    (true, r.2.1, [BridgeOut.resp "connect_response" (some r.1) none])
  else if command = "disconnect" then
    let r := disconnect vci s
    (true, r.2.1, [BridgeOut.resp "disconnect_response" (some r.1) none])
  else if command = "configure" then
    let r := configure vci s params.tx_h params.rx_h params.bus params.protocol params.target params.dialog_type
    (true, r.2.1, [BridgeOut.resp "configure_response" (some r.1) none])
  else if command = "send_receive" then
    let r := send_receive vci s params.data params.timeout
    (true, s, [BridgeOut.resp "send_receive_response" none (some r.1)])
  else if command = "send_receive_multiple" then
    let r := send_receive_multiple vci s params.data params.responses params.timeout
    (true, s, [BridgeOut.resp "send_receive_multiple_response" none (some r.1)])
  else if command = "perform_init" then
    let r := perform_init vci s none
    (true, s, [BridgeOut.resp "perform_init_response" (some r.1) none])
  else if command = "get_analog_data" then
    let r := get_analog_data vci params.channel
    (true, s, [BridgeOut.resp "get_analog_data_response" none (r.1.map toString)])
  else if command = "quit" then
    let r := disconnect vci s
    (false, r.2.1, [BridgeOut.resp "quit_response" (some true) none])
  else
    (true, s, [BridgeOut.log ("Unknown command: " ++ command)])

end VCIBridge

/-- Python `str.lower()` (ASCII case folding, used as `protocol.lower()`
in `VCIAdapter.configure`). -/
def pyLower (s : String) : String :=
  String.mk (s.data.map Char.toLower)

namespace VCIAdapter

/-! ## VCIAdapter.configure (the bridge client's protocol/bus mapping) -/

/-- The `protocol_map` dictionary in `VCIAdapter.configure` (as a partial
lookup; the source reads it with `.get(key, "DIAGONCAN")`). -/
def protocol_map (p : String) : Option String :=
  if p = "uds" then some "DIAGONCAN"
  else if p = "kwp_is" then some "DIAGONCAN"
  else if p = "kwp_hab" then some "DIAGONCAN"
  else if p = "kwp2000" then some "PSA2000"
  else if p = "psa2000" then some "PSA2000"
  else if p = "fiat_kwp" then some "KWPONCAN_FIAT"
  else none

/-- `vci_protocol = protocol_map.get(protocol.lower(), "DIAGONCAN")`. -/
def vci_protocol (protocol : String) : String :=
  (protocol_map (pyLower protocol)).getD "DIAGONCAN"

/-- The bus resolution in `VCIAdapter.configure`: `"auto"` picks IS only
for `kwp_is`, anything other than `"IS"` becomes `"DIAG"`. -/
def vci_bus (protocol bus : String) : String :=
  if bus = "auto" then (if pyLower protocol = "kwp_is" then "IS" else "DIAG")
  else if bus = "IS" then "IS" else "DIAG"

/-- The `params` map that `VCIAdapter.configure` sends to the bridge
process (target only when given, dialog_type only when not "0"). -/
structure ConfigureRequest where
  tx_h : String
  rx_h : String
  bus : String
  protocol : String
  target : Option String
  dialog_type : Option String
deriving DecidableEq

/-- Construction of the configure request in `VCIAdapter.configure`;
note that no protocol or bus value is ever rejected here. -/
def configure_request (tx_id rx_id protocol bus : String)
    (target : Option String) (dialog_type : String) : ConfigureRequest :=
  { tx_h := tx_id
    rx_h := rx_id
    bus := vci_bus protocol bus
    protocol := vci_protocol protocol
    target := target
    dialog_type := if dialog_type = "0" then none else some dialog_type }

end VCIAdapter

namespace SharedVCIBridge

/-! ## SharedVCIBridge (the access broker) -/

/-- A broker reply: the `status`/`message` dictionary sent back on the
client socket. -/
structure BrokerResponse where
  status : String
  message : String
deriving DecidableEq

/-- The broker-server state touched by request handlers. -/
structure ServerState where
  current_client : Option String
  vci_connected : Bool
  bridge_running : Bool
  clients : List String
deriving DecidableEq

/-- `SharedVCIBridge._handle_disconnect`: clear `current_client` only when
the requesting session is the recorded owner; always answer success. -/
def handle_disconnect (client_id : String) (s : ServerState) : BrokerResponse × ServerState :=
  let s1 := if s.current_client = some client_id then { s with current_client := none } else s
  ({ status := "success", message := "Disconnected" }, s1)

/-! ## The broker's queue/worker semantics (`_handle_requests`)

Client connection threads append decoded requests to the one shared FIFO
queue; the single worker thread started by `start_server` repeatedly pops
the head and executes the corresponding hardware operation under
`vci_lock` before popping the next.  Requests are identified by the order
in which they were enqueued. -/

/-- Observable hardware-execution events: the worker starting and
finishing the driver work for one dequeued request. -/
inductive BrokerEvent where
  | start (req : Nat)
  | stop (req : Nat)
deriving DecidableEq, Repr

/-- Broker scheduling state: pending FIFO queue, the request the single
worker is currently executing (if any), the event trace so far, and the
id for the next enqueued request. -/
structure BrokerSt where
  queue : List Nat
  busy : Option Nat
  trace : List BrokerEvent
  nextId : Nat
deriving DecidableEq, Repr

def initBroker : BrokerSt := { queue := [], busy := none, trace := [], nextId := 0 }

/-- One interleaving step: any client may enqueue at any time; the single
worker may begin the head request only when it is not executing another,
and may finish the request it is executing. -/
inductive BrokerStep : BrokerSt → BrokerSt → Prop where
  | enqueue (s : BrokerSt) :
      BrokerStep s { queue := s.queue ++ [s.nextId], busy := s.busy,
                     trace := s.trace, nextId := s.nextId + 1 }
  | dequeue (s : BrokerSt) (r : Nat) (rest : List Nat)
      (hq : s.queue = r :: rest) (hb : s.busy = none) :
      BrokerStep s { queue := rest, busy := some r,
                     trace := s.trace ++ [BrokerEvent.start r], nextId := s.nextId }
  | finish (s : BrokerSt) (r : Nat) (hb : s.busy = some r) :
      BrokerStep s { queue := s.queue, busy := none,
                     trace := s.trace ++ [BrokerEvent.stop r], nextId := s.nextId }

/-- States reachable from the freshly started broker under any
interleaving of client enqueues and worker progress. -/
inductive Reachable : BrokerSt → Prop where
  | init : Reachable initBroker
  | step {s t : BrokerSt} : Reachable s → BrokerStep s t → Reachable t

/-- Serializability checker: scan a trace keeping track of the request
currently inside the hardware; `none` signals two overlapping execution
intervals (a start while busy, or a mismatched stop). -/
def runSerial : List BrokerEvent → Option Nat → Option (Option Nat)
  | [], st => some st
  | BrokerEvent.start r :: rest, none => runSerial rest (some r)
  | BrokerEvent.start _ :: _, some _ => none
  | BrokerEvent.stop r :: rest, some q => if r = q then runSerial rest none else none
  | BrokerEvent.stop _ :: _, none => none

/-- The sequence of request ids in the order their hardware execution
started. -/
def startsOf (t : List BrokerEvent) : List Nat :=
  t.filterMap (fun e => match e with
    | BrokerEvent.start r => some r
    | BrokerEvent.stop _ => none)

end SharedVCIBridge

/-! ## Claims -/

open VCIBridge SharedVCIBridge

/-- The status-code vocabulary written out in `VCIBridge.statusToStr`. -/
def statusTable : List (Int × String) :=
  [(0, "OPERATION SUCCEEDED"), (1, "OPERATION SUCCEEDED (ALT)"),
   (-1, "HARDWARE ERROR"), (-2, "SOFTWARE ERROR"), (-3, "MISSING DRIVER RESOURCE"),
   (-4, "CABLE IS UNPLUGGED"), (-5, "NO RESPONSE FROM ECU"), (-6, "INVALID COMMUNICATION LINE"),
   (-7, "INVALID PROTOCOL DESCRIPTOR"), (-8, "INVALID ECU DESCRIPTOR"),
   (-9, "INVALID FUNCTION ORDER"), (-10, "RESPONSE BUFFER OVERFLOW"),
   (-11, "COMMUNICATION TIMEOUT"), (-12, "VCI BUSY"), (-13, "INVALID PARAMETER"),
   (-14, "INITIALIZATION FAILED"), (-15, "PROTOCOL NOT SUPPORTED")]

/-- C9: `statusToStr` is total: codes 0, 1 and -1 … -15 map to the fixed
symbolic vocabulary and every other integer maps to the fallback string
`"UNKNOWN ERROR n"`. -/
theorem statusToStr_total (p : Int × String) (n : Int)
    (hp : p ∈ statusTable) (hn : n ∉ statusTable.map Prod.fst) :
    statusToStr p.1 = p.2 ∧ statusToStr n = "UNKNOWN ERROR " ++ toString n := by
  constructor
  · fin_cases hp <;> rfl
  · simp only [statusTable, List.map_cons, List.map_nil, List.mem_cons,
      List.not_mem_nil, or_false, not_or] at hn
    obtain ⟨h0, h1, h2, h3, h4, h5, h6, h7, h8, h9, h10, h11, h12, h13, h14, h15, h16⟩ := hn
    simp [statusToStr, h0, h1, h2, h3, h4, h5, h6, h7, h8, h9, h10, h11, h12, h13, h14, h15, h16]

/-- Witness for C9 at the entry (-5, "NO RESPONSE FROM ECU") and the
uncovered code 42. -/
theorem statusToStr_total_witness :
    statusToStr (-5) = "NO RESPONSE FROM ECU" ∧
    statusToStr 42 = "UNKNOWN ERROR " ++ toString (42 : Int) :=
  statusToStr_total (-5, "NO RESPONSE FROM ECU") 42 (by decide) (by decide)

/-- C7 counterexample: a `disconnect` request from a session that is not
the recorded owner leaves `current_client` holding the other session, so
processing a disconnect from "any session" does not clear CurrentOwner. -/
theorem handle_disconnect_nonowner_cex :
    (handle_disconnect "client_1"
      { current_client := some "client_0", vci_connected := true,
        bridge_running := true, clients := ["client_0", "client_1"] }).2.current_client
      = some "client_0" := by decide

/-- C7 (amended): a broker `disconnect` request clears `current_client`
exactly when the requester is the recorded owner (otherwise the owner is
unchanged), always answers success, and leaves `vci_connected`, the
bridge process and the other sessions' connections untouched. -/
theorem handle_disconnect_frame (cid : String) (s : ServerState) :
    (handle_disconnect cid s).1.status = "success" ∧
    (handle_disconnect cid s).2.vci_connected = s.vci_connected ∧
    (handle_disconnect cid s).2.bridge_running = s.bridge_running ∧
    (handle_disconnect cid s).2.clients = s.clients ∧
    (s.current_client = some cid → (handle_disconnect cid s).2.current_client = none) ∧
    (s.current_client ≠ some cid → (handle_disconnect cid s).2.current_client = s.current_client) := by
  unfold handle_disconnect
  by_cases h : s.current_client = some cid <;> simp [h]

/-- Witness for C7 (amended) at an owning and a non-owning requester. -/
theorem handle_disconnect_frame_witness :
    (handle_disconnect "a" ⟨some "a", true, true, []⟩).2.current_client = none ∧
    (handle_disconnect "b" ⟨some "a", true, true, []⟩).2.current_client = some "a" := by
  refine ⟨(handle_disconnect_frame "a" ⟨some "a", true, true, []⟩).2.2.2.2.1 rfl, ?_⟩
  exact (handle_disconnect_frame "b" ⟨some "a", true, true, []⟩).2.2.2.2.2 (by decide)

/-- The command vocabulary recognized by `VCIBridge.handle_command`. -/
def knownCommands : List String :=
  ["connect", "disconnect", "configure", "send_receive", "send_receive_multiple",
   "perform_init", "get_analog_data", "quit"]

/-- C10: `handle_command` returns False exactly for "quit" (which first
disconnects and emits a `quit_response` with success true); any command
outside the vocabulary emits only a log line — no `_response` message —
and keeps the loop running. -/
theorem handle_command_quit_unknown (vci : Option Driver) (s : BridgeState)
    (command : String) (params : CmdParams) :
    ((handle_command vci s command params).1 = false ↔ command = "quit") ∧
    (command = "quit" →
      (handle_command vci s command params).2.2 = [BridgeOut.resp "quit_response" (some true) none] ∧
      (handle_command vci s command params).2.1 = (disconnect vci s).2.1) ∧
    (command ∉ knownCommands →
      (handle_command vci s command params).1 = true ∧
      (handle_command vci s command params).2.2 = [BridgeOut.log ("Unknown command: " ++ command)]) := by
  unfold handle_command
  by_cases h1 : command = "connect"
  · subst h1; simp [knownCommands]
  · by_cases h2 : command = "disconnect"
    · subst h2; simp [knownCommands]
    · by_cases h3 : command = "configure"
      · subst h3; simp [knownCommands]
      · by_cases h4 : command = "send_receive"
        · subst h4; simp [knownCommands]
        · by_cases h5 : command = "send_receive_multiple"
          · subst h5; simp [knownCommands]
          · by_cases h6 : command = "perform_init"
            · subst h6; simp [knownCommands]
            · by_cases h7 : command = "get_analog_data"
              · subst h7; simp [knownCommands]
              · by_cases h8 : command = "quit"
                · subst h8; simp [knownCommands]
                · simp [h1, h2, h3, h4, h5, h6, h7, h8, knownCommands]

/-- Witness for C10 at the "quit" command and an unknown command. -/
theorem handle_command_quit_unknown_witness :
    ((handle_command none initBridgeState "quit" ⟨"", 0, 0, 0, "", "", "", "", none, ""⟩).1 = false ↔
      ("quit" : String) = "quit") ∧
    (handle_command none initBridgeState "frobnicate" ⟨"", 0, 0, 0, "", "", "", "", none, ""⟩).2.2 =
      [BridgeOut.log ("Unknown command: " ++ "frobnicate")] := by
  refine ⟨(handle_command_quit_unknown none initBridgeState "quit" ⟨"", 0, 0, 0, "", "", "", "", none, ""⟩).1, ?_⟩
  exact ((handle_command_quit_unknown none initBridgeState "frobnicate"
    ⟨"", 0, 0, 0, "", "", "", "", none, ""⟩).2.2 (by decide)).2

/-- C8 counterexample driver: the session opens with status 0 but the
API-version read raises an exception. -/
def verExnDriver : Driver :=
  { openSession := some 0, getVersion := none, getFirmwareVersion := some 1,
    changeComLine := fun _ => some 0, bindProtocol := fun _ => some 0,
    writeAndRead := fun _ _ _ => some (0, []), writeAndReadMF := fun _ _ _ _ => some (0, []),
    performInit := fun _ => some (0, []), closeSession := some 0,
    getAnalogicData := fun _ => some (0, 0) }

/-- C8 counterexample: the open-session call succeeds (status 0) but an
error (exception) in the API-version read makes `connect` report failure,
so an erroring version read is by itself a connection failure. -/
theorem connect_version_error_cex :
    verExnDriver.openSession = some 0 ∧
    (connect (some verExnDriver) initBridgeState).1 = false := by decide

/-- C8 (amended): when the driver calls return statuses (no exception),
`connect` succeeds exactly when the open-session status is 0 or 1, for
every status — including negative ones — of the API-version and
firmware-version reads; an exception during a version read, however,
makes `connect` report failure. -/
theorem connect_success_iff (drv : Driver) (s : BridgeState) (r v f : Int)
    (ho : drv.openSession = some r) (hv : drv.getVersion = some v)
    (hf : drv.getFirmwareVersion = some f) :
    ((connect (some drv) s).1 = true ↔ (r = 0 ∨ r = 1)) ∧
    ((connect (some drv) s).1 = true → (connect (some drv) s).2.1.connected = true) := by
  unfold connect
  simp only [ho]
  by_cases hr : r = 0 ∨ r = 1
  · simp only [if_pos hr, hv, hf]; simp [hr]
  · simp only [if_neg hr]; simp [hr]

/-- C8 witness driver: both version reads return negative statuses. -/
def verFailDriver : Driver :=
  { openSession := some 1, getVersion := some (-3), getFirmwareVersion := some (-7),
    changeComLine := fun _ => some 0, bindProtocol := fun _ => some 0,
    writeAndRead := fun _ _ _ => some (0, []), writeAndReadMF := fun _ _ _ _ => some (0, []),
    performInit := fun _ => some (0, []), closeSession := some 0,
    getAnalogicData := fun _ => some (0, 0) }

/-- Witness for C8 (amended): with failing version statuses, `connect`
still succeeds. -/
theorem connect_success_iff_witness :
    ((connect (some verFailDriver) initBridgeState).1 = true ↔ ((1 : Int) = 0 ∨ (1 : Int) = 1)) ∧
    ((connect (some verFailDriver) initBridgeState).1 = true →
      (connect (some verFailDriver) initBridgeState).2.1.connected = true) :=
  connect_success_iff verFailDriver initBridgeState 1 (-3) (-7) rfl rfl rfl

/-- C2 counterexample driver: the line-selection call reports status -1. -/
def lineFailDriver : Driver :=
  { openSession := some 0, getVersion := some 1, getFirmwareVersion := some 1,
    changeComLine := fun _ => some (-1), bindProtocol := fun _ => some 0,
    writeAndRead := fun _ _ _ => some (0, []), writeAndReadMF := fun _ _ _ _ => some (0, []),
    performInit := fun _ => some (0, []), closeSession := some 0,
    getAnalogicData := fun _ => some (0, 0) }

/-- C2 counterexample: when the communication-line sub-step fails,
`configure` returns failure but the starting state is not restored: the
previously active EcuDescriptor has already been replaced, and from an
unconnected start the lazy connect has already set the `connected` flag
before the sub-step failed. -/
theorem configure_partial_state_cex :
    (configure (some lineFailDriver) ⟨true, some [1, 2], some "DIAGONCAN"⟩
      "752" "652" "DIAG" "DIAGONCAN" none "0").1 = false ∧
    (configure (some lineFailDriver) ⟨true, some [1, 2], some "DIAGONCAN"⟩
      "752" "652" "DIAG" "DIAGONCAN" none "0").2.1.currEcuDesc = some [6, 82, 7, 82] ∧
    (configure (some lineFailDriver) ⟨true, some [1, 2], some "DIAGONCAN"⟩
      "752" "652" "DIAG" "DIAGONCAN" none "0").2.1.currEcuDesc ≠ some [1, 2] ∧
    (configure (some lineFailDriver) ⟨false, some [1, 2], some "DIAGONCAN"⟩
      "752" "652" "DIAG" "DIAGONCAN" none "0").1 = false ∧
    (configure (some lineFailDriver) ⟨false, some [1, 2], some "DIAGONCAN"⟩
      "752" "652" "DIAG" "DIAGONCAN" none "0").2.1.connected = true := by decide

/-! ## Lemmas about the hex-string machinery -/

lemma hexDigit_lt16 {c : Char} {d : Nat} (h : hexDigit? c = some d) : d < 16 := by
  unfold hexDigit? at h
  split_ifs at h <;> simp_all <;> omega

lemma hexDigit_ne_space {c : Char} {d : Nat} (h : hexDigit? c = some d) : c ≠ ' ' := by
  intro hc
  rw [hc] at h
  rw [show hexDigit? ' ' = none from rfl] at h
  exact Option.noConfusion h

lemma pyIntHex_single {a : Char} {da : Nat} (ha : hexDigit? a = some da) :
    pyIntHex [a] = some da := by
  simp [pyIntHex, ha]

lemma pyIntHex_pair {a b : Char} {da db : Nat}
    (ha : hexDigit? a = some da) (hb : hexDigit? b = some db) :
    pyIntHex [a, b] = some (da * 16 + db) := by
  simp [pyIntHex, ha, hb]

lemma findallPairs_ne_nil {cs : List Char} (h : cs ≠ []) : findallPairs cs ≠ [] := by
  match cs with
  | [] => simp at h
  | [c] => simp [findallPairs]
  | a :: b :: rest => simp [findallPairs]

lemma findallPairs_sublists {cs g : List Char} (hg : g ∈ findallPairs cs) :
    ∀ c ∈ g, c ∈ cs := by
  induction cs using findallPairs.induct with
  | case1 => simp [findallPairs] at hg
  | case2 c => simp [findallPairs] at hg; subst hg; simp
  | case3 a b rest ih =>
    simp only [findallPairs, List.mem_cons] at hg
    rcases hg with hg | hg
    · subst hg; intro c hc; simp at hc; rcases hc with hc | hc <;> simp [hc]
    · intro c hc; have := ih hg c hc; simp [this]

lemma parseChunks_pairs {cs : List Char} (h : ∀ c ∈ cs, (hexDigit? c).isSome) :
    ∃ vs, parseChunks (findallPairs cs) = some vs ∧ ∀ v ∈ vs, v < 256 := by
  induction cs using findallPairs.induct with
  | case1 => exact ⟨[], by simp [findallPairs, parseChunks], by simp⟩
  | case2 c =>
    obtain ⟨d, hd⟩ := Option.isSome_iff_exists.mp (h c (by simp))
    refine ⟨[d], by simp [findallPairs, parseChunks, pyIntHex_single hd], ?_⟩
    have := hexDigit_lt16 hd
    intro v hv
    simp at hv
    omega
  | case3 a b rest ih =>
    obtain ⟨da, hda⟩ := Option.isSome_iff_exists.mp (h a (by simp))
    obtain ⟨db, hdb⟩ := Option.isSome_iff_exists.mp (h b (by simp))
    obtain ⟨vs, hvs, hlt⟩ := ih (fun c hc => h c (by simp [hc]))
    refine ⟨(da * 16 + db) :: vs, ?_, ?_⟩
    · simp [findallPairs, parseChunks, pyIntHex_pair hda hdb, hvs]
    · intro v hv
      rcases List.mem_cons.mp hv with hv | hv
      · subst hv
        have h1 := hexDigit_lt16 hda
        have h2 := hexDigit_lt16 hdb
        omega
      · exact hlt v hv

lemma splitOnSpace_no_space {g : List Char} (h : ' ' ∉ g) : splitOnSpace g = [g] := by
  induction g with
  | nil => rfl
  | cons c rest ih =>
    have hc : ¬ (c = ' ') := fun hc => h (by simp [hc])
    have hr : ' ' ∉ rest := fun hm => h (by simp [hm])
    simp [splitOnSpace, hc, ih hr]

lemma splitOnSpace_append {g t : List Char} (h : ' ' ∉ g) :
    splitOnSpace (g ++ ' ' :: t) = g :: splitOnSpace t := by
  induction g with
  | nil => simp [splitOnSpace]
  | cons c rest ih =>
    have hc : ¬ (c = ' ') := fun hc => h (by simp [hc])
    have hr : ' ' ∉ rest := fun hm => h (by simp [hm])
    have ihr := ih hr
    simp only [List.cons_append, splitOnSpace, hc, if_false, List.append_eq, ihr]

lemma splitOnSpace_joinSpaces {gs : List (List Char)} (hne : gs ≠ [])
    (h : ∀ g ∈ gs, ' ' ∉ g) : splitOnSpace (joinSpaces gs) = gs := by
  induction gs with
  | nil => simp at hne
  | cons g rest ih =>
    match rest with
    | [] => simpa [joinSpaces] using splitOnSpace_no_space (h g (by simp))
    | g2 :: rest2 =>
      have hj : joinSpaces (g :: g2 :: rest2) = g ++ ' ' :: joinSpaces (g2 :: rest2) := rfl
      rw [hj, splitOnSpace_append (h g (by simp))]
      rw [ih (by simp) (fun g3 hg3 => h g3 (by simp [hg3]))]

lemma strby_to_char_hex {s : String} (hhex : ∀ c ∈ s.data, (hexDigit? c).isSome)
    (hne : s.data ≠ []) :
    ∃ vs, strby_to_char s = some vs ∧ parseChunks (findallPairs s.data) = some vs := by
  obtain ⟨vs, hvs, hlt⟩ := parseChunks_pairs hhex
  refine ⟨vs, ?_, hvs⟩
  unfold strby_to_char bytesEncode
  simp only
  rw [splitOnSpace_joinSpaces (findallPairs_ne_nil hne)
    (fun g hg hsp => by
      obtain ⟨d, hd⟩ := Option.isSome_iff_exists.mp (hhex ' ' (findallPairs_sublists hg ' ' hsp))
      exact hexDigit_ne_space hd rfl)]
  rw [hvs]
  simp only
  rw [if_pos (by simpa [List.all_eq_true, decide_eq_true_eq] using hlt)]

lemma bytesEncode_pairs_hex {data : String} (h : ∀ c ∈ data.data, (hexDigit? c).isSome) :
    ∃ vs, bytesEncode data none = some vs ∧ parseChunks (findallPairs data.data) = some vs := by
  obtain ⟨vs, hvs, hlt⟩ := parseChunks_pairs h
  refine ⟨vs, ?_, hvs⟩
  unfold bytesEncode
  simp only [hvs]
  rw [if_pos (by simpa [List.all_eq_true, decide_eq_true_eq] using hlt)]

lemma range_map_getD (bs : List Nat) :
    (List.range bs.length).map (fun i => bs.getD i 0) = bs := by
  induction bs with
  | nil => simp
  | cons a t ih =>
    rw [List.length_cons, List.range_succ_eq_map, List.map_cons, List.map_map]
    have h2 : ((fun i => (a :: t).getD i 0) ∘ fun i => i + 1) = fun i => t.getD i 0 := by
      funext i
      simp [List.getD_cons_succ]
    rw [h2, ih]
    simp

set_option maxRecDepth 8000 in
lemma hexByte_eq_spec : ∀ b < 256,
    hexByte b = String.mk [hexDigitCharU (b / 16), hexDigitCharU (b % 16)] := by decide

/-! ## C4: the DIAGONCAN ECU descriptor -/

/-- Left zero-padding to four characters (the padding claim C4 ascribes to
both headers). -/
def zfill4 (s : String) : String :=
  String.mk (List.replicate (4 - s.length) '0') ++ s

/-- The descriptor C4 claims for the CAN diagnostic protocol: receive
header then transmit header, each zero-padded on the left to 4 hex
digits, consecutive hex-digit pairs packed into bytes. -/
def ecuDescriptorPadded (tx_h rx_h : String) : Option (List Nat) :=
  parseChunks (findallPairs (zfill4 rx_h ++ zfill4 tx_h).data)

/-- C4 counterexample: with the non-empty two-digit transmit header "52",
the code pads nothing (only 3-character headers are padded), so the built
descriptor differs from the padded concatenation the claim describes. -/
theorem ecu_descriptor_padding_cex :
    ecuToEcuDescriptor (some "52") (some "652") DIAG_ON_CAN none "0" = some [6, 82, 82] ∧
    ecuDescriptorPadded "52" "652" = some [6, 82, 0, 82] ∧
    ecuToEcuDescriptor (some "52") (some "652") DIAG_ON_CAN none "0"
      ≠ ecuDescriptorPadded "52" "652" := by decide

lemma pad3to4_eq_zfill4 {h : String} (hl : h.length = 3 ∨ h.length = 4) :
    pad3to4 h = zfill4 h := by
  rcases hl with hl | hl
  · rw [pad3to4, if_pos hl, zfill4, hl]
    rfl
  · rw [pad3to4, if_neg (by omega), zfill4, hl]
    have : String.mk (List.replicate (4 - 4) '0') = "" := rfl
    rw [this]
    exact (String.empty_append h).symm

lemma zfill4_data (h : String) :
    (zfill4 h).data = List.replicate (4 - h.length) '0' ++ h.data := by
  rw [zfill4]
  exact String.data_append _ _

/-- C4 (amended): for transmit and receive headers of exactly 3 or 4 hex
digits, the DIAGONCAN EcuDescriptor equals the byte packing of the
receive-then-transmit concatenation with each header zero-padded to 4 hex
digits (3-digit headers being the only ones the code actually pads). -/
theorem ecu_descriptor_diag_padded (tx rx : String)
    (htl : tx.length = 3 ∨ tx.length = 4)
    (hrl : rx.length = 3 ∨ rx.length = 4)
    (htx : ∀ c ∈ tx.data, (hexDigit? c).isSome)
    (hrx : ∀ c ∈ rx.data, (hexDigit? c).isSome) :
    ecuToEcuDescriptor (some tx) (some rx) DIAG_ON_CAN none "0" = ecuDescriptorPadded tx rx ∧
    (ecuDescriptorPadded tx rx).isSome := by
  have htne : ¬ (tx = "") := by
    intro h
    subst h
    rcases htl with h | h <;> simp at h
  have hrne : ¬ (rx = "") := by
    intro h
    subst h
    rcases hrl with h | h <;> simp at h
  have hs : ∀ c ∈ (zfill4 rx ++ zfill4 tx).data, (hexDigit? c).isSome := by
    intro c hc
    rw [String.data_append, zfill4_data, zfill4_data] at hc
    simp only [List.mem_append, List.mem_replicate] at hc
    rcases hc with (⟨_, hc⟩ | hc) | (⟨_, hc⟩ | hc)
    · subst hc; decide
    · exact hrx c hc
    · subst hc; decide
    · exact htx c hc
  have hsne : (zfill4 rx ++ zfill4 tx).data ≠ [] := by
    rw [String.data_append, zfill4_data]
    intro h
    have := congrArg List.length h
    simp at this
    omega
  obtain ⟨vs, h1, h2⟩ := strby_to_char_hex hs hsne
  have lhs : ecuToEcuDescriptor (some tx) (some rx) DIAG_ON_CAN none "0" = some vs := by
    unfold ecuToEcuDescriptor
    rw [if_pos rfl]
    rw [if_pos (by simp [truthy, htne, hrne])]
    simp only [Option.getD_some]
    rw [pad3to4_eq_zfill4 hrl, pad3to4_eq_zfill4 htl]
    exact h1
  refine ⟨?_, ?_⟩
  · rw [lhs, ecuDescriptorPadded, h2]
  · rw [ecuDescriptorPadded, h2]
    rfl

/-- Witness for C4 (amended) at tx "752", rx "652". -/
theorem ecu_descriptor_diag_padded_witness :
    ecuToEcuDescriptor (some "752") (some "652") DIAG_ON_CAN none "0"
      = ecuDescriptorPadded "752" "652" ∧
    (ecuDescriptorPadded "752" "652").isSome :=
  ecu_descriptor_diag_padded "752" "652" (by decide) (by decide) (by decide) (by decide)

/-! ## C6: the send_receive payload round trip -/

/-- C6: with the bridge configured, an even-length hex payload and a
driver that answers with byte sequence `B` (all bytes), `send_receive`
returns exactly the uppercase, separator-free hex rendering of `B`. -/
theorem send_receive_roundtrip (drv : Driver) (s : BridgeState) (d : List Nat)
    (data : String) (B : List Nat) (timeout : Int)
    (hdesc : s.currEcuDesc = some d)
    (hhex : ∀ c ∈ data.data, (hexDigit? c).isSome)
    (heven : data.data.length % 2 = 0)
    (hB : ∀ b ∈ B, b < 256)
    (hecho : ∀ e inp t, drv.writeAndRead e inp t = some ((B.length : Int), B)) :
    (send_receive (some drv) s data timeout).1 = hexRender B := by
  obtain ⟨inB, hinB, _⟩ := bytesEncode_pairs_hex hhex
  unfold send_receive
  simp only [hdesc, hinB, hecho]
  rcases B with _ | ⟨b0, B'⟩
  · rfl
  · have hpos : (0 : Int) < ((b0 :: B').length : Int) := by
      have : 0 < (b0 :: B').length := Nat.succ_pos _
      exact_mod_cast this
    rw [if_pos hpos]
    have htn : (((b0 :: B').length : Int)).toNat = (b0 :: B').length := by
      simp
    rw [htn, range_map_getD, hexRender]
    show String.join (List.map hexByte (b0 :: B')) = _
    congr 1
    exact List.map_congr_left (fun b hb => hexByte_eq_spec b (hB b hb))

/-- C6 echo driver: answers every exchange with bytes 7E 00. -/
def echoDriver : Driver :=
  { openSession := some 0, getVersion := some 1, getFirmwareVersion := some 1,
    changeComLine := fun _ => some 0, bindProtocol := fun _ => some 0,
    writeAndRead := fun _ _ _ => some (2, [126, 0]),
    writeAndReadMF := fun _ _ _ _ => some (2, [126, 0]),
    performInit := fun _ => some (0, []), closeSession := some 0,
    getAnalogicData := fun _ => some (0, 0) }

/-- Witness for C6: sending "3E00" against a driver echoing 7E 00 yields
the literal string "7E00". -/
theorem send_receive_roundtrip_witness :
    (send_receive (some echoDriver) ⟨true, some [6, 82, 7, 82], some "DIAGONCAN"⟩ "3E00" 1500).1
      = hexRender [126, 0] ∧ hexRender [126, 0] = "7E00" := by
  constructor
  · exact send_receive_roundtrip echoDriver ⟨true, some [6, 82, 7, 82], some "DIAGONCAN"⟩
      [6, 82, 7, 82] "3E00" [126, 0] 1500 rfl (by decide) (by decide) (by decide)
      (fun _ _ _ => rfl)
  · decide

/-! ## C3: the communication-line / protocol-descriptor table -/

lemma configure_trace_DIAGONCAN_DIAG (drv : Driver) (s : BridgeState) (tx rx dt : String)
    (target : Option String) (cst bst : Int)
    (hc : s.connected = true) (hcc : drv.changeComLine 17 = some cst) (hcst : 0 ≤ cst)
    (hbp : drv.bindProtocol [3, 16, 232] = some bst) :
    (configure (some drv) s tx rx "DIAG" "DIAGONCAN" target dt).2.2 =
      [HwCall.changeComLine 17, HwCall.bindProtocol [3, 16, 232]] := by
  have hbind : bindProtocolOp (some drv) (some DIAG_ON_CAN)
      = (decide (0 ≤ bst), [HwCall.bindProtocol [3, 16, 232]]) := by
    unfold bindProtocolOp
    simp only
    rw [show (protocolToProtocolDescriptor (some DIAG_ON_CAN)).getD [] = [3, 16, 232] from rfl, hbp]
  unfold configure
  rw [hc]
  have hbr : busRemap "DIAG" "DIAGONCAN" = ("DIAG", "DIAGONCAN") := rfl
  have h17 : LINE_CAN_DIAG = (17 : Int) := rfl
  simp only [if_true, hbr]
  simp only [changeComLineOp, h17, hcc, decide_eq_true hcst, hbind]
  by_cases hb : (0 : Int) ≤ bst <;> simp [hb]

lemma configure_trace_DIAGONCAN_IS (drv : Driver) (s : BridgeState) (tx rx dt : String)
    (target : Option String) (cst bst : Int)
    (hc : s.connected = true) (hcc : drv.changeComLine 18 = some cst) (hcst : 0 ≤ cst)
    (hbp : drv.bindProtocol [3, 16, 232] = some bst) :
    (configure (some drv) s tx rx "IS" "DIAGONCAN" target dt).2.2 =
      [HwCall.changeComLine 18, HwCall.bindProtocol [3, 16, 232]] := by
  have hbind : bindProtocolOp (some drv) (some DIAG_ON_CAN)
      = (decide (0 ≤ bst), [HwCall.bindProtocol [3, 16, 232]]) := by
    unfold bindProtocolOp
    simp only
    rw [show (protocolToProtocolDescriptor (some DIAG_ON_CAN)).getD [] = [3, 16, 232] from rfl, hbp]
  unfold configure
  rw [hc]
  have hbr : busRemap "IS" "DIAGONCAN" = ("IS", "DIAGONCAN") := rfl
  have hline : (if ("IS" : String) = "DIAG" then LINE_CAN_DIAG else LINE_CAN_IS) = (18 : Int) := rfl
  simp only [if_true, hbr]
  simp only [changeComLineOp, hline, hcc, decide_eq_true hcst, hbind]
  by_cases hb : (0 : Int) ≤ bst <;> simp [hb]

lemma configure_trace_FIAT_DIAG (drv : Driver) (s : BridgeState) (tx rx dt : String)
    (target : Option String) (cst bst : Int)
    (hc : s.connected = true) (hcc : drv.changeComLine 47 = some cst) (hcst : 0 ≤ cst)
    (hbp : drv.bindProtocol [7] = some bst) :
    (configure (some drv) s tx rx "DIAG" "KWPONCAN_FIAT" target dt).2.2 =
      [HwCall.changeComLine 47, HwCall.bindProtocol [7]] := by
  have hbind : bindProtocolOp (some drv) (some KWP_ON_CAN_FIAT)
      = (decide (0 ≤ bst), [HwCall.bindProtocol [7]]) := by
    unfold bindProtocolOp
    simp only
    rw [show (protocolToProtocolDescriptor (some KWP_ON_CAN_FIAT)).getD [] = [7] from rfl, hbp]
  unfold configure
  rw [hc]
  have hbr : busRemap "DIAG" "KWPONCAN_FIAT" = ("DIAG", "KWPONCAN_FIAT") := rfl
  have h47 : LINE_CAN_FIAT_LS6 = (47 : Int) := rfl
  simp only [if_true, hbr]
  simp only [changeComLineOp, h47, hcc, decide_eq_true hcst, hbind]
  by_cases hb : (0 : Int) ≤ bst <;> simp [hb]

lemma configure_trace_FIAT_IS (drv : Driver) (s : BridgeState) (tx rx dt : String)
    (target : Option String) (cst bst : Int)
    (hc : s.connected = true) (hcc : drv.changeComLine 48 = some cst) (hcst : 0 ≤ cst)
    (hbp : drv.bindProtocol [7] = some bst) :
    (configure (some drv) s tx rx "IS" "KWPONCAN_FIAT" target dt).2.2 =
      [HwCall.changeComLine 48, HwCall.bindProtocol [7]] := by
  have hbind : bindProtocolOp (some drv) (some KWP_ON_CAN_FIAT)
      = (decide (0 ≤ bst), [HwCall.bindProtocol [7]]) := by
    unfold bindProtocolOp
    simp only
    rw [show (protocolToProtocolDescriptor (some KWP_ON_CAN_FIAT)).getD [] = [7] from rfl, hbp]
  unfold configure
  rw [hc]
  have hbr : busRemap "IS" "KWPONCAN_FIAT" = ("IS", "KWPONCAN_FIAT") := rfl
  have hline : (if ("IS" : String) = "DIAG" then LINE_CAN_FIAT_LS6 else LINE_CAN_FIAT_LS3)
      = (48 : Int) := rfl
  simp only [if_true, hbr]
  simp only [changeComLineOp, hline, hcc, decide_eq_true hcst, hbind]
  by_cases hb : (0 : Int) ≤ bst <;> simp [hb]

lemma configure_trace_PSA2000 (drv : Driver) (s : BridgeState) (tx rx : String)
    (cst bst ir : Int) (iout : List Nat)
    (hc : s.connected = true) (hcc : drv.changeComLine 0 = some cst) (hcst : 0 ≤ cst)
    (hbp : drv.bindProtocol [1, 0] = some bst) (hbst : 0 ≤ bst)
    (hpi : drv.performInit [13] = some (ir, iout)) :
    (configure (some drv) s tx rx "IS" "PSA2000" none "0").2.2 =
      [HwCall.changeComLine 0, HwCall.bindProtocol [1, 0], HwCall.performInit [13]] := by
  have hbind : bindProtocolOp (some drv) (some KWP2000_PSA)
      = (decide (0 ≤ bst), [HwCall.bindProtocol [1, 0]]) := by
    unfold bindProtocolOp
    simp only
    rw [show (protocolToProtocolDescriptor (some KWP2000_PSA)).getD [] = [1, 0] from rfl, hbp]
  have hecud : ecuToEcuDescriptor none none KWP2000_PSA (some (zfill2 (pyHexUpper 13))) "0"
      = some [13] := rfl
  have hinit : ∀ st : BridgeState, st.currEcuDesc = some [13] →
      perform_init (some drv) st none = (decide (0 ≤ ir), [HwCall.performInit [13]]) := by
    intro st hst
    unfold perform_init
    simp only [hst]
    rw [hpi]
  unfold configure
  rw [hc]
  have hbr : busRemap "IS" "PSA2000" = ("IS", "PSA2000") := rfl
  simp only [if_true, hbr]
  have hti : targetInt? none = some 13 := rfl
  have hdd : pyIntDec ("0" : String).data = some 0 := rfl
  simp only [hti, hdd, hecud]
  simp only [changeComLineOp, show Int.ofNat 0 = (0 : Int) from rfl, hcc,
    decide_eq_true hcst, hbind, decide_eq_true hbst, if_true]
  rw [hinit]
  · by_cases hi : (0 : Int) ≤ ir <;> simp [hi]
  · rfl

/-- C3: for every supported (bus, protocol) pair, `configure` selects
exactly the documented communication line and passes exactly the
documented protocol-descriptor bytes to the driver bind call: DIAGONCAN
on DIAG uses line 17 and bytes 03 10 E8, DIAGONCAN on IS line 18,
KWPONCAN_FIAT on DIAG line 47 and byte 07, KWPONCAN_FIAT on IS line 48,
and PSA2000 binds bytes 01 00. -/
theorem configure_line_descriptor_table :
    (∀ (drv : Driver) (s : BridgeState) (tx rx dt : String) (target : Option String)
        (cst bst : Int), s.connected = true →
      drv.changeComLine 17 = some cst → 0 ≤ cst → drv.bindProtocol [3, 16, 232] = some bst →
      (configure (some drv) s tx rx "DIAG" "DIAGONCAN" target dt).2.2 =
        [HwCall.changeComLine 17, HwCall.bindProtocol [3, 16, 232]]) ∧
    (∀ (drv : Driver) (s : BridgeState) (tx rx dt : String) (target : Option String)
        (cst bst : Int), s.connected = true →
      drv.changeComLine 18 = some cst → 0 ≤ cst → drv.bindProtocol [3, 16, 232] = some bst →
      (configure (some drv) s tx rx "IS" "DIAGONCAN" target dt).2.2 =
        [HwCall.changeComLine 18, HwCall.bindProtocol [3, 16, 232]]) ∧
    (∀ (drv : Driver) (s : BridgeState) (tx rx dt : String) (target : Option String)
        (cst bst : Int), s.connected = true →
      drv.changeComLine 47 = some cst → 0 ≤ cst → drv.bindProtocol [7] = some bst →
      (configure (some drv) s tx rx "DIAG" "KWPONCAN_FIAT" target dt).2.2 =
        [HwCall.changeComLine 47, HwCall.bindProtocol [7]]) ∧
    (∀ (drv : Driver) (s : BridgeState) (tx rx dt : String) (target : Option String)
        (cst bst : Int), s.connected = true →
      drv.changeComLine 48 = some cst → 0 ≤ cst → drv.bindProtocol [7] = some bst →
      (configure (some drv) s tx rx "IS" "KWPONCAN_FIAT" target dt).2.2 =
        [HwCall.changeComLine 48, HwCall.bindProtocol [7]]) ∧
    (∀ (drv : Driver) (s : BridgeState) (tx rx : String) (cst bst ir : Int) (iout : List Nat),
      s.connected = true →
      drv.changeComLine 0 = some cst → 0 ≤ cst → drv.bindProtocol [1, 0] = some bst → 0 ≤ bst →
      drv.performInit [13] = some (ir, iout) →
      (configure (some drv) s tx rx "IS" "PSA2000" none "0").2.2 =
        [HwCall.changeComLine 0, HwCall.bindProtocol [1, 0], HwCall.performInit [13]]) := by
  refine ⟨?_, ?_, ?_, ?_, ?_⟩
  · exact fun drv s tx rx dt target cst bst hc hcc hcst hbp =>
      configure_trace_DIAGONCAN_DIAG drv s tx rx dt target cst bst hc hcc hcst hbp
  · exact fun drv s tx rx dt target cst bst hc hcc hcst hbp =>
      configure_trace_DIAGONCAN_IS drv s tx rx dt target cst bst hc hcc hcst hbp
  · exact fun drv s tx rx dt target cst bst hc hcc hcst hbp =>
      configure_trace_FIAT_DIAG drv s tx rx dt target cst bst hc hcc hcst hbp
  · exact fun drv s tx rx dt target cst bst hc hcc hcst hbp =>
      configure_trace_FIAT_IS drv s tx rx dt target cst bst hc hcc hcst hbp
  · exact fun drv s tx rx cst bst ir iout hc hcc hcst hbp hbst hpi =>
      configure_trace_PSA2000 drv s tx rx cst bst ir iout hc hcc hcst hbp hbst hpi

/-- Driver whose every call reports status 0, for witnesses. -/
def okDriver : Driver :=
  { openSession := some 0, getVersion := some 1, getFirmwareVersion := some 1,
    changeComLine := fun _ => some 0, bindProtocol := fun _ => some 0,
    writeAndRead := fun _ _ _ => some (1, [0]), writeAndReadMF := fun _ _ _ _ => some (1, [0]),
    performInit := fun _ => some (0, []), closeSession := some 0,
    getAnalogicData := fun _ => some (0, 0) }

/-- Witness for C3: all five table rows evaluated against `okDriver`. -/
theorem configure_line_descriptor_table_witness :
    (configure (some okDriver) ⟨true, none, none⟩ "752" "652" "DIAG" "DIAGONCAN" none "0").2.2 =
      [HwCall.changeComLine 17, HwCall.bindProtocol [3, 16, 232]] ∧
    (configure (some okDriver) ⟨true, none, none⟩ "752" "652" "IS" "DIAGONCAN" none "0").2.2 =
      [HwCall.changeComLine 18, HwCall.bindProtocol [3, 16, 232]] ∧
    (configure (some okDriver) ⟨true, none, none⟩ "752" "652" "DIAG" "KWPONCAN_FIAT" (some "52") "0").2.2 =
      [HwCall.changeComLine 47, HwCall.bindProtocol [7]] ∧
    (configure (some okDriver) ⟨true, none, none⟩ "752" "652" "IS" "KWPONCAN_FIAT" (some "52") "0").2.2 =
      [HwCall.changeComLine 48, HwCall.bindProtocol [7]] ∧
    (configure (some okDriver) ⟨true, none, none⟩ "752" "652" "IS" "PSA2000" none "0").2.2 =
      [HwCall.changeComLine 0, HwCall.bindProtocol [1, 0], HwCall.performInit [13]] := by
  obtain ⟨h1, h2, h3, h4, h5⟩ := configure_line_descriptor_table
  exact ⟨h1 okDriver ⟨true, none, none⟩ "752" "652" "0" none 0 0 rfl rfl (by decide) rfl,
    h2 okDriver ⟨true, none, none⟩ "752" "652" "0" none 0 0 rfl rfl (by decide) rfl,
    h3 okDriver ⟨true, none, none⟩ "752" "652" "0" (some "52") 0 0 rfl rfl (by decide) rfl,
    h4 okDriver ⟨true, none, none⟩ "752" "652" "0" (some "52") 0 0 rfl rfl (by decide) rfl,
    h5 okDriver ⟨true, none, none⟩ "752" "652" 0 0 0 [] rfl rfl (by decide) rfl (by decide) rfl⟩

/-! ## C2: atomicity of configure on sub-step failure -/

/-- The communication-line call for `line` reports a negative status. -/
def lineNeg (drv : Driver) (line : Int) : Prop :=
  ∃ c, drv.changeComLine line = some c ∧ c < 0

def lineOk (drv : Driver) (line : Int) : Prop :=
  ∃ c, drv.changeComLine line = some c ∧ 0 ≤ c

def bindNeg (drv : Driver) (desc : List Nat) : Prop :=
  ∃ b, drv.bindProtocol desc = some b ∧ b < 0

def bindOk (drv : Driver) (desc : List Nat) : Prop :=
  ∃ b, drv.bindProtocol desc = some b ∧ 0 ≤ b

def stepsNeg (drv : Driver) (line : Int) (desc : List Nat) : Prop :=
  lineNeg drv line ∨ (lineOk drv line ∧ bindNeg drv desc)

def subStepNegative (drv : Driver) (bus protocol : String) (target : Option String)
    (dialog_type : String) : Prop :=
  ((busRemap bus protocol).2 = "DIAGONCAN" ∧
    (((busRemap bus protocol).1 = "DIAG" ∧ stepsNeg drv 17 [3, 16, 232]) ∨
     ((busRemap bus protocol).1 = "IS" ∧ stepsNeg drv 18 [3, 16, 232]))) ∨
  ((busRemap bus protocol).2 = "KWPONCAN_FIAT" ∧
    (((busRemap bus protocol).1 = "DIAG" ∧ stepsNeg drv 47 [7]) ∨
     ((busRemap bus protocol).1 = "IS" ∧ stepsNeg drv 48 [7]))) ∨
  ((busRemap bus protocol).2 = "PSA2000" ∧
    ∃ ti di, targetInt? target = some ti ∧ pyIntDec dialog_type.data = some di ∧
      (stepsNeg drv (Int.ofNat di) [1, 0] ∨
        (lineOk drv (Int.ofNat di) ∧ bindOk drv [1, 0] ∧
          ∃ dsc ir iout,
            ecuToEcuDescriptor none none KWP2000_PSA (some (zfill2 (pyHexUpper ti))) "0" = some dsc ∧
            drv.performInit dsc = some (ir, iout) ∧ ir < 0)))

lemma configure_fail_frame (drv : Driver) (s : BridgeState)
    (tx rx bus protocol : String) (target : Option String) (dt : String)
    (hc : s.connected = true) :
    (configure (some drv) s tx rx bus protocol target dt).1 = false →
    ((configure (some drv) s tx rx bus protocol target dt).2.1.active_protocol = s.active_protocol ∧
     (configure (some drv) s tx rx bus protocol target dt).2.1.connected = true) := by
  unfold configure
  rw [hc]
  simp only [if_true]
  repeat' split
  all_goals intro hfail
  all_goals try exact ⟨rfl, hc⟩
  all_goals simp_all

/-- `connect` only touches the `connected` flag; `active_protocol` is
preserved on every path. -/
lemma connect_active_protocol (vci : Option Driver) (s : BridgeState) :
    (connect vci s).2.1.active_protocol = s.active_protocol := by
  unfold connect
  repeat' split
  all_goals rfl

/-- Failure frame of `configure` over every starting state: on a failure
result `active_protocol` is unchanged, and when the bridge was already
connected the `connected` flag is unchanged too (a lazy connect from an
unconnected start may have set it before the failure). -/
lemma configure_fail_frame_any (drv : Driver) (s : BridgeState)
    (tx rx bus protocol : String) (target : Option String) (dt : String) :
    (configure (some drv) s tx rx bus protocol target dt).1 = false →
    ((configure (some drv) s tx rx bus protocol target dt).2.1.active_protocol
        = s.active_protocol ∧
     (s.connected = true →
       (configure (some drv) s tx rx bus protocol target dt).2.1.connected = true)) := by
  by_cases hconn : s.connected = true
  · intro hfail
    obtain ⟨h1, h2⟩ := configure_fail_frame drv s tx rx bus protocol target dt hconn hfail
    exact ⟨h1, fun _ => h2⟩
  · have hcap := connect_active_protocol (some drv) s
    unfold configure
    rw [Bool.not_eq_true] at hconn
    rw [hconn]
    simp only [Bool.false_eq_true, if_false]
    rcases hcr : connect (some drv) s with ⟨cok, s0, ctr⟩
    rw [hcr] at hcap
    cases cok with
    | false => exact fun _ => ⟨hcap, fun h => h.elim⟩
    | true =>
      simp only
      repeat' split
      all_goals intro hfail
      all_goals try exact ⟨hcap, fun h => h.elim⟩
      all_goals simp_all

lemma configure_substep_fail (drv : Driver) (s : BridgeState)
    (tx rx bus protocol : String) (target : Option String) (dt : String)
    (hss : subStepNegative drv bus protocol target dt) :
    (configure (some drv) s tx rx bus protocol target dt).1 = false := by
  unfold configure
  rcases hcr : (if s.connected = true then (true, s, ([] : List HwCall))
      else connect (some drv) s) with ⟨cok, s0, ctr⟩
  cases cok with
  | false => rfl
  | true =>
    simp only
    unfold subStepNegative at hss
    rcases hbr : busRemap bus protocol with ⟨bus1, prot1⟩
    simp only [hbr] at hss ⊢
    have hl17 : LINE_CAN_DIAG = (17 : Int) := rfl
    have hl18 : LINE_CAN_IS = (18 : Int) := rfl
    have hl47 : LINE_CAN_FIAT_LS6 = (47 : Int) := rfl
    have hl48 : LINE_CAN_FIAT_LS3 = (48 : Int) := rfl
    rcases hss with ⟨hp, hrest⟩ | ⟨hp, hrest⟩ | ⟨hp, hrest⟩
    · subst hp
      rw [if_pos rfl]
      rcases hrest with ⟨hb, hsn⟩ | ⟨hb, hsn⟩ <;> subst hb
      · rw [if_pos (Or.inl rfl)]
        have hline : (if ("DIAG" : String) = "DIAG" then LINE_CAN_DIAG else LINE_CAN_IS)
            = (17 : Int) := rfl
        rcases hsn with ⟨c, hcc, hneg⟩ | ⟨⟨c, hcc, hcnn⟩, ⟨b, hbb, hbneg⟩⟩
        · simp only [changeComLineOp, ite_true, ite_false, hl17, hl18, hl47, hl48, hline, hcc,
            decide_eq_false (not_le.mpr hneg)]
          simp
        · have hbind : bindProtocolOp (some drv) (some DIAG_ON_CAN)
              = (decide (0 ≤ b), [HwCall.bindProtocol [3, 16, 232]]) := by
            unfold bindProtocolOp
            simp only
            rw [show (protocolToProtocolDescriptor (some DIAG_ON_CAN)).getD [] = [3, 16, 232] from rfl, hbb]
          simp only [changeComLineOp, ite_true, ite_false, hl17, hl18, hl47, hl48, hline, hcc,
            decide_eq_true hcnn, if_true, hbind, decide_eq_false (not_le.mpr hbneg)]
          simp
      · rw [if_pos (Or.inr rfl)]
        have hline : (if ("IS" : String) = "DIAG" then LINE_CAN_DIAG else LINE_CAN_IS)
            = (18 : Int) := rfl
        rcases hsn with ⟨c, hcc, hneg⟩ | ⟨⟨c, hcc, hcnn⟩, ⟨b, hbb, hbneg⟩⟩
        · simp only [changeComLineOp, hline, hcc,
            decide_eq_false (not_le.mpr hneg)]
          simp
        · have hbind : bindProtocolOp (some drv) (some DIAG_ON_CAN)
              = (decide (0 ≤ b), [HwCall.bindProtocol [3, 16, 232]]) := by
            unfold bindProtocolOp
            simp only
            rw [show (protocolToProtocolDescriptor (some DIAG_ON_CAN)).getD [] = [3, 16, 232] from rfl, hbb]
          simp only [changeComLineOp, hline, hcc,
            decide_eq_true hcnn, if_true, hbind, decide_eq_false (not_le.mpr hbneg)]
          simp
    · subst hp
      rw [if_neg (by decide), if_pos rfl]
      rcases hrest with ⟨hb, hsn⟩ | ⟨hb, hsn⟩ <;> subst hb
      · rw [if_pos (Or.inl rfl)]
        have hline : (if ("DIAG" : String) = "DIAG" then LINE_CAN_FIAT_LS6 else LINE_CAN_FIAT_LS3)
            = (47 : Int) := rfl
        rcases hsn with ⟨c, hcc, hneg⟩ | ⟨⟨c, hcc, hcnn⟩, ⟨b, hbb, hbneg⟩⟩
        · simp only [changeComLineOp, ite_true, ite_false, hl17, hl18, hl47, hl48, hline, hcc,
            decide_eq_false (not_le.mpr hneg)]
          simp
        · have hbind : bindProtocolOp (some drv) (some KWP_ON_CAN_FIAT)
              = (decide (0 ≤ b), [HwCall.bindProtocol [7]]) := by
            unfold bindProtocolOp
            simp only
            rw [show (protocolToProtocolDescriptor (some KWP_ON_CAN_FIAT)).getD [] = [7] from rfl, hbb]
          simp only [changeComLineOp, ite_true, ite_false, hl17, hl18, hl47, hl48, hline, hcc,
            decide_eq_true hcnn, if_true, hbind, decide_eq_false (not_le.mpr hbneg)]
          simp
      · rw [if_pos (Or.inr rfl)]
        have hline : (if ("IS" : String) = "DIAG" then LINE_CAN_FIAT_LS6 else LINE_CAN_FIAT_LS3)
            = (48 : Int) := rfl
        rcases hsn with ⟨c, hcc, hneg⟩ | ⟨⟨c, hcc, hcnn⟩, ⟨b, hbb, hbneg⟩⟩
        · simp only [changeComLineOp, hline, hcc,
            decide_eq_false (not_le.mpr hneg)]
          simp
        · have hbind : bindProtocolOp (some drv) (some KWP_ON_CAN_FIAT)
              = (decide (0 ≤ b), [HwCall.bindProtocol [7]]) := by
            unfold bindProtocolOp
            simp only
            rw [show (protocolToProtocolDescriptor (some KWP_ON_CAN_FIAT)).getD [] = [7] from rfl, hbb]
          simp only [changeComLineOp, hline, hcc,
            decide_eq_true hcnn, if_true, hbind, decide_eq_false (not_le.mpr hbneg)]
          simp
    · subst hp
      rw [if_neg (by decide), if_neg (by decide), if_pos rfl]
      obtain ⟨ti, di, hti, hdi, hsn⟩ := hrest
      rw [hti, hdi]
      simp only
      rcases hsn with (⟨c, hcc, hneg⟩ | ⟨⟨c, hcc, hcnn⟩, ⟨b, hbb, hbneg⟩⟩) |
        ⟨⟨c, hcc, hcnn⟩, ⟨b, hbb, hbnn⟩, dsc, ir, iout, hdsc, hpi, hineg⟩
      · simp only [changeComLineOp, ite_true, ite_false, hcc, decide_eq_false (not_le.mpr hneg)]
        simp
      · have hbind : bindProtocolOp (some drv) (some KWP2000_PSA)
            = (decide (0 ≤ b), [HwCall.bindProtocol [1, 0]]) := by
          unfold bindProtocolOp
          simp only
          rw [show (protocolToProtocolDescriptor (some KWP2000_PSA)).getD [] = [1, 0] from rfl, hbb]
        simp only [changeComLineOp, ite_true, ite_false, hcc, decide_eq_true hcnn, if_true, hbind,
          decide_eq_false (not_le.mpr hbneg)]
        simp
      · have hbind : bindProtocolOp (some drv) (some KWP2000_PSA)
            = (decide (0 ≤ b), [HwCall.bindProtocol [1, 0]]) := by
          unfold bindProtocolOp
          simp only
          rw [show (protocolToProtocolDescriptor (some KWP2000_PSA)).getD [] = [1, 0] from rfl, hbb]
        have hinit : ∀ st : BridgeState, st.currEcuDesc = some dsc →
            perform_init (some drv) st none = (decide (0 ≤ ir), [HwCall.performInit dsc]) := by
          intro st hst
          unfold perform_init
          simp only [hst]
          rw [hpi]
        simp only [changeComLineOp, ite_true, ite_false, hcc, decide_eq_true hcnn, if_true, hbind,
          decide_eq_true hbnn, hdsc]
        rw [hinit]
        · simp [decide_eq_false (not_le.mpr hineg)]
        · rfl


/-- C2 (amended): for every starting state and argument tuple, whenever
any `configure` sub-step (line selection, protocol bind, or the PSA2000
init handshake) reports a negative status, `configure` returns failure
and leaves `active_protocol` unchanged; when the bridge was already
connected the `connected` flag is also unchanged.  Nothing is rolled
back, however: the EcuDescriptor (`currEcuDesc`) may already have been
replaced by the time of the failure, and when `configure` had to connect
lazily first, `connected` stays set even though `configure` failed (see
the counterexample for both). -/
theorem configure_substep_failure (drv : Driver) (s : BridgeState)
    (tx rx bus protocol : String) (target : Option String) (dt : String)
    (hss : subStepNegative drv bus protocol target dt) :
    (configure (some drv) s tx rx bus protocol target dt).1 = false ∧
    (configure (some drv) s tx rx bus protocol target dt).2.1.active_protocol
      = s.active_protocol ∧
    (s.connected = true →
      (configure (some drv) s tx rx bus protocol target dt).2.1.connected = true) := by
  have hfail := configure_substep_fail drv s tx rx bus protocol target dt hss
  have hframe := configure_fail_frame_any drv s tx rx bus protocol target dt hfail
  exact ⟨hfail, hframe.1, hframe.2⟩

/-- Witness for C2 (amended): a failing line-selection status makes
`configure` fail while `active_protocol` is untouched, and from an
already-connected start `connected` is untouched too. -/
theorem configure_substep_failure_witness :
    (configure (some lineFailDriver) ⟨true, some [1, 2], some "P"⟩
      "752" "652" "DIAG" "DIAGONCAN" none "0").1 = false ∧
    (configure (some lineFailDriver) ⟨true, some [1, 2], some "P"⟩
      "752" "652" "DIAG" "DIAGONCAN" none "0").2.1.active_protocol = some "P" ∧
    (configure (some lineFailDriver) ⟨true, some [1, 2], some "P"⟩
      "752" "652" "DIAG" "DIAGONCAN" none "0").2.1.connected = true := by
  have h := configure_substep_failure lineFailDriver ⟨true, some [1, 2], some "P"⟩
    "752" "652" "DIAG" "DIAGONCAN" none "0"
    (Or.inl ⟨rfl, Or.inl ⟨rfl, Or.inl ⟨-1, rfl, by decide⟩⟩⟩)
  exact ⟨h.1, h.2.1, h.2.2 rfl⟩

/-! ## C1: broker mutual exclusion and FIFO order -/

lemma runSerial_append (a b : List BrokerEvent) (st : Option Nat) :
    runSerial (a ++ b) st = (runSerial a st).bind (fun st2 => runSerial b st2) := by
  induction a generalizing st with
  | nil => simp [runSerial]
  | cons e rest ih =>
    cases e with
    | start r =>
      cases st with
      | none => simp [runSerial, ih]
      | some q => simp [runSerial]
    | stop r =>
      cases st with
      | none => simp [runSerial]
      | some q => by_cases h : r = q <;> simp [runSerial, h, ih]

lemma startsOf_append (a b : List BrokerEvent) :
    startsOf (a ++ b) = startsOf a ++ startsOf b := by
  simp [startsOf, List.filterMap_append]

/-- The inductive invariant of the broker semantics: the started requests
are exactly 0..d-1 in order, the queue holds d..nextId-1 in order, and
the trace replays serially ending in the current busy state. -/
def BrokerInv (s : BrokerSt) : Prop :=
  ∃ d : Nat, startsOf s.trace = List.range d ∧ d ≤ s.nextId ∧
    s.queue = List.range' d (s.nextId - d) ∧
    runSerial s.trace none = some s.busy

lemma brokerInv_init : BrokerInv initBroker :=
  ⟨0, by simp [initBroker, startsOf], by simp [initBroker], by simp [initBroker], rfl⟩

lemma brokerInv_step {s t : BrokerSt} (hs : BrokerInv s) (hst : BrokerStep s t) : BrokerInv t := by
  obtain ⟨d, hstarts, hdle, hqueue, hrun⟩ := hs
  cases hst with
  | enqueue =>
    refine ⟨d, by simpa using hstarts, by simp; omega, ?_, by simpa using hrun⟩
    simp only
    have h1 : s.nextId + 1 - d = (s.nextId - d) + 1 := by omega
    have h2 : d + (s.nextId - d) = s.nextId := by omega
    rw [hqueue, h1, List.range'_1_concat, h2]
  | dequeue r rest hq hb =>
    have hk : s.nextId - d ≠ 0 := by
      intro h0
      rw [hqueue, h0] at hq
      simp [List.range'] at hq
    obtain ⟨k, hk'⟩ : ∃ k, s.nextId - d = k + 1 := ⟨s.nextId - d - 1, by omega⟩
    rw [hqueue, hk', List.range'_succ] at hq
    injection hq with hr hrest
    refine ⟨d + 1, ?_, show d + 1 ≤ s.nextId by omega, ?_, ?_⟩
    · simp only
      rw [startsOf_append, hstarts, ← hr]
      simp [startsOf, List.range_succ]
    · simp only
      have : s.nextId - (d + 1) = k := by omega
      rw [this, ← hrest]
    · simp only
      rw [runSerial_append, hrun, hb]
      simp [runSerial]
  | finish r hb =>
    refine ⟨d, ?_, hdle, hqueue, ?_⟩
    · simp only
      rw [startsOf_append, hstarts]
      simp [startsOf]
    · simp only
      rw [runSerial_append, hrun, hb]
      simp [runSerial]

lemma brokerInv_reachable {s : BrokerSt} (h : Reachable s) : BrokerInv s := by
  induction h with
  | init => exact brokerInv_init
  | step _ hst ih => exact brokerInv_step ih hst

/-- C1: in every reachable broker state, the trace of hardware start/stop
events is strictly serial (runSerial succeeds: no two execution intervals
overlap, and the in-progress request matches the worker state), and the
hardware executions started so far are exactly requests 0, 1, 2, … in the
FIFO order in which they were enqueued and dequeued. -/
theorem broker_mutual_exclusion_fifo (s : BrokerSt) (h : Reachable s) :
    runSerial s.trace none = some s.busy ∧
    startsOf s.trace = List.range (startsOf s.trace).length := by
  obtain ⟨d, hstarts, _, _, hrun⟩ := brokerInv_reachable h
  refine ⟨hrun, ?_⟩
  rw [hstarts, List.length_range]

/-- Witness for C1 at a concrete interleaving: enqueue two requests,
execute the first fully, then begin the second. -/
theorem broker_mutual_exclusion_fifo_witness :
    runSerial [BrokerEvent.start 0, BrokerEvent.stop 0, BrokerEvent.start 1] none = some (some 1) ∧
    startsOf [BrokerEvent.start 0, BrokerEvent.stop 0, BrokerEvent.start 1] =
      List.range (startsOf [BrokerEvent.start 0, BrokerEvent.stop 0, BrokerEvent.start 1]).length := by
  have h0 : Reachable initBroker := Reachable.init
  have h1 : Reachable ⟨[0], none, [], 1⟩ := by
    simpa [initBroker] using Reachable.step h0 (BrokerStep.enqueue initBroker)
  have h2 : Reachable ⟨[0, 1], none, [], 2⟩ := by
    simpa using Reachable.step h1 (BrokerStep.enqueue _)
  have h3 : Reachable ⟨[1], some 0, [BrokerEvent.start 0], 2⟩ := by
    simpa using Reachable.step h2 (BrokerStep.dequeue _ 0 [1] rfl rfl)
  have h4 : Reachable ⟨[1], none, [BrokerEvent.start 0, BrokerEvent.stop 0], 2⟩ := by
    simpa using Reachable.step h3 (BrokerStep.finish _ 0 rfl)
  have h5 : Reachable ⟨[], some 1, [BrokerEvent.start 0, BrokerEvent.stop 0, BrokerEvent.start 1], 2⟩ := by
    simpa using Reachable.step h4 (BrokerStep.dequeue _ 1 [] rfl rfl)
  simpa using broker_mutual_exclusion_fifo _ h5

/-! ## C5: rejection of unsupported protocol/bus, and the adapter fallback -/

/-- C5 counterexample: `VCIAdapter.configure` does not reject the
unsupported protocol name "bogus" or the unsupported bus "XYZ"; it
silently substitutes DIAGONCAN and DIAG in the request it sends. -/
theorem adapter_silent_fallback_cex :
    VCIAdapter.protocol_map "bogus" = none ∧
    (VCIAdapter.configure_request "752" "652" "bogus" "XYZ" none "0").protocol = "DIAGONCAN" ∧
    (VCIAdapter.configure_request "752" "652" "bogus" "XYZ" none "0").bus = "DIAG" := by decide

/-- C5 (amended): `VCIBridge.configure` rejects an unsupported protocol
name, and an unsupported bus for a supported CAN protocol, with a failure
result and no hardware call; `VCIAdapter.configure`, however, never
rejects: it silently maps every protocol name into the supported set
(unknown names to DIAGONCAN) and every bus to DIAG or IS. -/
theorem configure_reject_no_fallback :
    (∀ (drv : Driver) (s : BridgeState) (tx rx bus protocol : String)
        (target : Option String) (dt : String), s.connected = true →
      (busRemap bus protocol).2 ∉ (["DIAGONCAN", "KWPONCAN_FIAT", "PSA2000"] : List String) →
      (configure (some drv) s tx rx bus protocol target dt).1 = false ∧
      (configure (some drv) s tx rx bus protocol target dt).2.2 = []) ∧
    (∀ (drv : Driver) (s : BridgeState) (tx rx bus protocol : String)
        (target : Option String) (dt : String), s.connected = true →
      (busRemap bus protocol).2 = "DIAGONCAN" →
      (busRemap bus protocol).1 ≠ "DIAG" → (busRemap bus protocol).1 ≠ "IS" →
      (configure (some drv) s tx rx bus protocol target dt).1 = false ∧
      (configure (some drv) s tx rx bus protocol target dt).2.2 = []) ∧
    (∀ (drv : Driver) (s : BridgeState) (tx rx bus protocol : String)
        (target : Option String) (dt : String), s.connected = true →
      (busRemap bus protocol).2 = "KWPONCAN_FIAT" →
      (busRemap bus protocol).1 ≠ "DIAG" → (busRemap bus protocol).1 ≠ "IS" →
      (configure (some drv) s tx rx bus protocol target dt).1 = false ∧
      (configure (some drv) s tx rx bus protocol target dt).2.2 = []) ∧
    (∀ (tx rx protocol bus : String) (target : Option String) (dt : String),
      (VCIAdapter.configure_request tx rx protocol bus target dt).protocol
        ∈ (["DIAGONCAN", "PSA2000", "KWPONCAN_FIAT"] : List String) ∧
      (VCIAdapter.configure_request tx rx protocol bus target dt).bus
        ∈ (["DIAG", "IS"] : List String)) := by
  refine ⟨?_, ?_, ?_, ?_⟩
  · intro drv s tx rx bus protocol target dt hc hns
    unfold configure
    rw [hc]
    simp only [if_true]
    rcases hbr : busRemap bus protocol with ⟨bus1, prot1⟩
    simp only [hbr] at hns ⊢
    simp only [List.mem_cons, List.not_mem_nil, or_false, not_or] at hns
    obtain ⟨h1, h2, h3⟩ := hns
    rw [if_neg h1, if_neg h2, if_neg h3]
    exact ⟨rfl, rfl⟩
  · intro drv s tx rx bus protocol target dt hc hp hb1 hb2
    unfold configure
    rw [hc]
    simp only [if_true]
    rcases hbr : busRemap bus protocol with ⟨bus1, prot1⟩
    simp only [hbr] at hp hb1 hb2 ⊢
    subst hp
    have hnb : ¬(bus1 = "DIAG" ∨ bus1 = "IS") := fun h => h.elim hb1 hb2
    rw [if_pos rfl, if_neg hnb]
    exact ⟨rfl, rfl⟩
  · intro drv s tx rx bus protocol target dt hc hp hb1 hb2
    unfold configure
    rw [hc]
    simp only [if_true]
    rcases hbr : busRemap bus protocol with ⟨bus1, prot1⟩
    simp only [hbr] at hp hb1 hb2 ⊢
    subst hp
    have hnb : ¬(bus1 = "DIAG" ∨ bus1 = "IS") := fun h => h.elim hb1 hb2
    rw [if_neg (show ¬(("KWPONCAN_FIAT" : String) = "DIAGONCAN") by decide), if_pos rfl, if_neg hnb]
    exact ⟨rfl, rfl⟩
  · intro tx rx protocol bus target dt
    constructor
    · unfold VCIAdapter.configure_request VCIAdapter.vci_protocol VCIAdapter.protocol_map
      split_ifs <;> simp
    · unfold VCIAdapter.configure_request VCIAdapter.vci_bus
      split_ifs <;> simp

/-- Witness for C5 (amended): the raw protocol name "uds" (unsupported at
the bridge layer) is rejected with no hardware call, while the adapter
maps "bogus" into the supported set instead of rejecting. -/
theorem configure_reject_no_fallback_witness :
    (configure (some okDriver) ⟨true, none, none⟩ "752" "652" "DIAG" "uds" none "0").1 = false ∧
    (configure (some okDriver) ⟨true, none, none⟩ "752" "652" "DIAG" "uds" none "0").2.2 = [] ∧
    (VCIAdapter.configure_request "752" "652" "bogus" "XYZ" none "0").protocol
      ∈ (["DIAGONCAN", "PSA2000", "KWPONCAN_FIAT"] : List String) := by
  obtain ⟨h1, _, _, h4⟩ := configure_reject_no_fallback
  have ha := h1 okDriver ⟨true, none, none⟩ "752" "652" "DIAG" "uds" none "0" rfl (by decide)
  exact ⟨ha.1, ha.2, (h4 "752" "652" "bogus" "XYZ" none "0").1⟩

end PyPSADiag
